import Mathlib

/-!
Shallow embedding of the AdGuardHome sync HTTP client
(`pkg/client/client.go` and the `pointer` helper package).

The transport library (resty) is modelled by the outcome it hands back to the
client code: either the request succeeded (Go `err == nil`) and carries a
response, or it failed (`err != nil`) with an error message and possibly a
response attached (under the client's redirect policies a redirect response
surfaces as a failed request with the 302 response attached).  `doGet` and
`doPost` are translated line by line from the Go source; the batch mutation
operations (`AddRewriteEntries`, `DeleteRewriteEntries`, `AddClients`) are the
Go loops, with the network modelled as an oracle mapping the index of each
issued call to its outcome, and the list of issued calls recorded so that
theorems can speak about which requests were sent.
-/

/-- An HTTP response as the Go client observes it through resty: the numeric
status code (`resp.StatusCode()`), the status line (`resp.Status()`, e.g.
"200 OK"), the raw body, and the `Location` header. -/
structure Response where
  statusCode : Nat
  status : String
  body : String
  location : String
deriving DecidableEq, Repr

/-- Outcome of one resty request as seen by `doGet`/`doPost`: `success resp`
models Go `err == nil`, `failure errMsg resp` models `err != nil` with the
error text and the (possibly nil) response. -/
inductive RestyOutcome where
  | success (resp : Response)
  | failure (errMsg : String) (resp : Option Response)
deriving DecidableEq, Repr

/-- The errors the client functions return: the `ErrSetupNeeded` sentinel,
`errors.New(resp.Status())` for a non-success status, or the transport error
propagated unchanged. -/
inductive ClientError where
  | setupNeeded
  | httpError (status : String)
  | transportError (msg : String)
deriving DecidableEq, Repr

/-- Translation of `client.doGet`: on transport failure, if a response is
attached with status 302 and `Location: /install.html`, return
`ErrSetupNeeded`, otherwise propagate the transport error; on a completed
request, any status other than 200 becomes `errors.New(resp.Status())`. -/
def doGet (r : RestyOutcome) : Except ClientError Unit :=
  match r with
  | RestyOutcome.failure errMsg (some resp) =>
      if resp.statusCode = 302 then
        if resp.location = "/install.html" then Except.error ClientError.setupNeeded
        else Except.error (ClientError.transportError errMsg)
      else Except.error (ClientError.transportError errMsg)
  | RestyOutcome.failure errMsg none => Except.error (ClientError.transportError errMsg)
  | RestyOutcome.success resp =>
      if resp.statusCode ≠ 200 then Except.error (ClientError.httpError resp.status)
      else Except.ok ()

/-- Translation of `client.doPost`: identical to `doGet` except that there is
no check for the `/install.html` redirect, so a transport failure is always
propagated unchanged. -/
def doPost (r : RestyOutcome) : Except ClientError Unit :=
  match r with
  | RestyOutcome.failure errMsg _ => Except.error (ClientError.transportError errMsg)
  | RestyOutcome.success resp =>
      if resp.statusCode ≠ 200 then Except.error (ClientError.httpError resp.status)
      else Except.ok ()

/-- C2: `doGet` returns the setup-required signal exactly when the request
failed with a 302 response whose `Location` header is "/install.html" (under
the client's redirect policy a redirect always surfaces as a failed request
with the response attached); every other failing request is returned as the
ordinary transport error. -/
theorem doGet_setupNeeded_iff :
    (∀ r : RestyOutcome,
      doGet r = Except.error ClientError.setupNeeded ↔
        ∃ errMsg resp, r = RestyOutcome.failure errMsg (some resp) ∧
          resp.statusCode = 302 ∧ resp.location = "/install.html") ∧
    (∀ errMsg oresp,
      doGet (RestyOutcome.failure errMsg oresp) = Except.error ClientError.setupNeeded ∨
      doGet (RestyOutcome.failure errMsg oresp) =
        Except.error (ClientError.transportError errMsg)) := by
  constructor
  · intro r
    constructor
    · intro h
      match r with
      | RestyOutcome.success resp =>
          by_cases h200 : resp.statusCode = 200 <;> simp [doGet, h200] at h
      | RestyOutcome.failure errMsg none =>
          simp [doGet] at h
      | RestyOutcome.failure errMsg (some resp) =>
          by_cases h302 : resp.statusCode = 302
          · by_cases hloc : resp.location = "/install.html"
            · exact ⟨errMsg, resp, rfl, h302, hloc⟩
            · simp [doGet, h302, hloc] at h
          · simp [doGet, h302] at h
    · rintro ⟨errMsg, resp, rfl, h302, hloc⟩
      simp [doGet, h302, hloc]
  · intro errMsg oresp
    match oresp with
    | none => right; simp [doGet]
    | some resp =>
        by_cases h302 : resp.statusCode = 302
        · by_cases hloc : resp.location = "/install.html"
          · left; simp [doGet, h302, hloc]
          · right; simp [doGet, h302, hloc]
        · right; simp [doGet, h302]

/-- C3 counterexample: on the very transport failure that makes `doGet` return
the setup-required signal (302 redirect to "/install.html"), the mutation path
`doPost` returns an ordinary transport error, not `ErrSetupNeeded`. -/
theorem doPost_no_setupNeeded_counterexample :
    doPost (RestyOutcome.failure "redirect blocked"
        (some { statusCode := 302, status := "302 Found", body := "",
                location := "/install.html" })) =
      Except.error (ClientError.transportError "redirect blocked") ∧
    doGet (RestyOutcome.failure "redirect blocked"
        (some { statusCode := 302, status := "302 Found", body := "",
                location := "/install.html" })) =
      Except.error ClientError.setupNeeded :=
  ⟨rfl, rfl⟩

/-- C3 (amended): only the read path `doGet` can surface the setup-required
signal; `doPost`, used by every mutation operation, never returns it — a
redirect to the provisioning page surfaces there as the unchanged transport
error. -/
theorem doPost_never_setupNeeded (r : RestyOutcome) :
    doPost r ≠ Except.error ClientError.setupNeeded := by
  match r with
  | RestyOutcome.failure errMsg oresp => simp [doPost]
  | RestyOutcome.success resp =>
      by_cases h200 : resp.statusCode = 200 <;> simp [doPost, h200]

/-- C3 (amended) witness: `doPost` on a concrete 302 "/install.html" failure
is not the setup-required signal. -/
theorem doPost_never_setupNeeded_witness :
    doPost (RestyOutcome.failure "redirect blocked"
        (some { statusCode := 302, status := "302 Found", body := "",
                location := "/install.html" })) ≠
      Except.error ClientError.setupNeeded :=
  doPost_never_setupNeeded _

/-- C4 counterexample: two completed responses that differ only in their body
produce the same error value from `doGet` and from `doPost`, so the returned
error cannot surface the response body; the error is exactly
`errors.New(resp.Status())`, which carries the status line only. -/
theorem error_drops_body_counterexample :
    doGet (RestyOutcome.success
        { statusCode := 403, status := "403 Forbidden", body := "body-a", location := "" }) =
      doGet (RestyOutcome.success
        { statusCode := 403, status := "403 Forbidden", body := "body-b", location := "" }) ∧
    doPost (RestyOutcome.success
        { statusCode := 403, status := "403 Forbidden", body := "body-a", location := "" }) =
      doPost (RestyOutcome.success
        { statusCode := 403, status := "403 Forbidden", body := "body-b", location := "" }) ∧
    doGet (RestyOutcome.success
        { statusCode := 403, status := "403 Forbidden", body := "body-a", location := "" }) =
      Except.error (ClientError.httpError "403 Forbidden") :=
  ⟨rfl, rfl, rfl⟩

/-- C4 (amended): a request completing with a non-success status yields the
error `errors.New(resp.Status())`, surfacing the status line (code and reason)
but not the response body, in both `doGet` and `doPost` (the body appears only
in debug logging). -/
theorem error_surfaces_status_line (resp : Response) (h : resp.statusCode ≠ 200) :
    doGet (RestyOutcome.success resp) = Except.error (ClientError.httpError resp.status) ∧
    doPost (RestyOutcome.success resp) = Except.error (ClientError.httpError resp.status) := by
  exact ⟨by simp [doGet, h], by simp [doPost, h]⟩

/-- C4 (amended) witness: evaluated at a concrete 403 response. -/
theorem error_surfaces_status_line_witness :
    doGet (RestyOutcome.success
        { statusCode := 403, status := "403 Forbidden", body := "denied", location := "" }) =
      Except.error (ClientError.httpError "403 Forbidden") ∧
    doPost (RestyOutcome.success
        { statusCode := 403, status := "403 Forbidden", body := "denied", location := "" }) =
      Except.error (ClientError.httpError "403 Forbidden") :=
  error_surfaces_status_line
    { statusCode := 403, status := "403 Forbidden", body := "denied", location := "" }
    (by decide)

/-- C8: a completed request succeeds exactly when its status code is 200; every
other status, 204 included, is turned into an error by both `doGet` and
`doPost`. -/
theorem success_iff_status_200 (resp : Response) :
    (doGet (RestyOutcome.success resp) = Except.ok () ↔ resp.statusCode = 200) ∧
    (doPost (RestyOutcome.success resp) = Except.ok () ↔ resp.statusCode = 200) := by
  by_cases h200 : resp.statusCode = 200 <;>
    simp [doGet, doPost, h200]

/-- A DNS rewrite entry (`types.RewriteEntry`): domain and answer. -/
structure RewriteEntry where
  domain : String
  answer : String
deriving DecidableEq, Repr

/-- An AdGuardHome client profile (`model.Client`), keyed by name; the batch
operations post the whole entry, so the name is all the claims need. -/
structure Model.Client where
  name : String
deriving DecidableEq, Repr

/-- One POST request issued by a batch operation: the target path and the body
sent with it. -/
structure PostCall (β : Type) where
  url : String
  body : β
deriving DecidableEq, Repr

/-- The Go batch loop shared verbatim by `AddRewriteEntries`,
`DeleteRewriteEntries` and `AddClients`: post each item in order to the fixed
path, and `return err` — aborting the loop — as soon as one call fails.  The
network is an oracle from the index of the issued call to its outcome; the
returned list records the calls actually issued. -/
def batchPost {β : Type} (url : String) (net : Nat → RestyOutcome) :
    Nat → List β → List (PostCall β) × Except ClientError Unit
  | _, [] => ([], Except.ok ())
  | k, b :: rest =>
      match doPost (net k) with
      | Except.error err => ([{ url := url, body := b }], Except.error err)
      | Except.ok _ =>
          let r := batchPost url net (k + 1) rest
          ({ url := url, body := b } :: r.1, r.2)

/-- Translation of `client.AddRewriteEntries`: one POST to "/rewrite/add" per
entry, aborting on the first error. -/
def AddRewriteEntries (net : Nat → RestyOutcome) (entries : List RewriteEntry) :
    List (PostCall RewriteEntry) × Except ClientError Unit :=
  batchPost "/rewrite/add" net 0 entries

/-- Translation of `client.DeleteRewriteEntries`: one POST to "/rewrite/delete"
per entry, aborting on the first error. -/
def DeleteRewriteEntries (net : Nat → RestyOutcome) (entries : List RewriteEntry) :
    List (PostCall RewriteEntry) × Except ClientError Unit :=
  batchPost "/rewrite/delete" net 0 entries

/-- Translation of `client.AddClients`: one POST to "/clients/add" per client,
aborting on the first error. -/
def AddClients (net : Nat → RestyOutcome) (clients : List Model.Client) :
    List (PostCall Model.Client) × Except ClientError Unit :=
  batchPost "/clients/add" net 0 clients

/-- When every call succeeds, the batch loop issues exactly one call per item,
in input order, and reports success. -/
theorem batchPost_all_ok {β : Type} (url : String) (net : Nat → RestyOutcome)
    (k : Nat) (bodies : List β)
    (h : ∀ j, j < bodies.length → doPost (net (k + j)) = Except.ok ()) :
    batchPost url net k bodies =
      (bodies.map (fun b => { url := url, body := b }), Except.ok ()) := by
  induction bodies generalizing k with
  | nil => rfl
  | cons b rest ih =>
      have h0 : doPost (net k) = Except.ok () := by
        have hh := h 0 (Nat.succ_pos _)
        simpa using hh
      have hr := ih (k + 1) (fun j hj => by
        have hh := h (j + 1) (Nat.succ_lt_succ hj)
        rw [Nat.add_right_comm]
        simpa [Nat.add_assoc] using hh)
      simp [batchPost, h0, hr]

/-- When the first `j` calls succeed and call `j` fails, the batch loop issues
exactly the calls for the first `j + 1` items and returns the failing call's
error: later items are never attempted. -/
theorem batchPost_abort {β : Type} (url : String) (net : Nat → RestyOutcome)
    (err : ClientError) (k j : Nat) (bodies : List β) (hj : j < bodies.length)
    (hok : ∀ i, i < j → doPost (net (k + i)) = Except.ok ())
    (hfail : doPost (net (k + j)) = Except.error err) :
    batchPost url net k bodies =
      ((bodies.take (j + 1)).map (fun b => { url := url, body := b }),
        Except.error err) := by
  induction bodies generalizing k j with
  | nil => exact absurd hj (Nat.not_lt_zero j)
  | cons b rest ih =>
      cases j with
      | zero =>
          have h0 : doPost (net k) = Except.error err := by simpa using hfail
          simp [batchPost, h0]
      | succ j =>
          have h0 : doPost (net k) = Except.ok () := by
            have hh := hok 0 (Nat.succ_pos _)
            simpa using hh
          have hr := ih (k + 1) j (Nat.lt_of_succ_lt_succ hj)
            (fun i hi => by
              have hh := hok (i + 1) (Nat.succ_lt_succ hi)
              rw [Nat.add_right_comm]
              simpa [Nat.add_assoc] using hh)
            (by
              rw [Nat.add_right_comm]
              simpa [Nat.add_assoc] using hfail)
          simp [batchPost, h0, hr]

/-- Basic-authentication credentials (`resty`'s `UserInfo`), set on the client
by `New` when the instance has both a username and a password. -/
structure UserInfo where
  username : String
  password : String
deriving DecidableEq, Repr

/-- `model.AddressInfo`: an IP and a port. -/
structure AddressInfo where
  ip : String
  port : Nat
deriving DecidableEq, Repr

/-- `model.InitialConfiguration`: the body `Setup` posts to
"/install/configure"; the username and password are Go zero values unless the
client has credentials. -/
structure InitialConfiguration where
  web : AddressInfo
  dns : AddressInfo
  username : String
  password : String
deriving DecidableEq, Repr

/-- The one request `Setup` issues: its path, its body, and the
basic-authentication credentials attached to the request (Go `req.UserInfo`,
explicitly cleared by `Setup`). -/
structure SetupCall where
  url : String
  body : InitialConfiguration
  auth : Option UserInfo
deriving DecidableEq, Repr

/-- Translation of `client.Setup`: build an `InitialConfiguration` with web
0.0.0.0:3000 and DNS 0.0.0.0:53, copy the client's credentials into it when
present, clear the request's basic-auth (`req.UserInfo = nil`), and POST it
once to "/install/configure".  Returns the issued calls and the `doPost`
result for the given network outcome. -/
def Setup (net : RestyOutcome) (userInfo : Option UserInfo) :
    List SetupCall × Except ClientError Unit :=
  let base : InitialConfiguration :=
    { web := { ip := "0.0.0.0", port := 3000 },
      dns := { ip := "0.0.0.0", port := 53 },
      username := "", password := "" }
  let cfg : InitialConfiguration :=
    match userInfo with
    | some ui => { base with username := ui.username, password := ui.password }
    | none => base
  ([{ url := "/install/configure", body := cfg, auth := none }], doPost net)

/-- `types.AdGuardInstance`: the fields of the instance configuration that
`New` reads. -/
structure AdGuardInstance where
  url : String
  apiPath : String
  username : String
  password : String
  insecureSkipVerify : Bool
deriving DecidableEq, Repr

/-- The parts of a parsed URL that `New` uses. -/
structure URLParts where
  host : String
  path : String
deriving DecidableEq, Repr

/-- The state of the constructed client that the claims need: the host and the
basic-auth credentials (the resty handle and logger carry no further state the
claims are about). -/
structure client where
  host : String
  userInfo : Option UserInfo
deriving DecidableEq, Repr

/-- The API URL `New` builds before parsing: URL ++ "/control" when the
API-path override is empty, URL ++ "/" ++ APIPath otherwise. -/
def apiURLOf (config : AdGuardInstance) : String :=
  if config.apiPath = "" then config.url ++ "/control"
  else config.url ++ "/" ++ config.apiPath

/-- Translation of `client.New`, parameterized by the URL parser (Go
`url.Parse`) and the optional `REDIRECT_POLICY_NO_OF_REDIRECTS` environment
value: a parse failure is returned before anything else happens, so no client
is constructed and no call can ever be issued for that instance. -/
def New (parseURL : String → Except String URLParts) (redirectEnv : Option String)
    (config : AdGuardInstance) : Except String client :=
  match parseURL (apiURLOf config) with
  | Except.error e => Except.error e
  | Except.ok u =>
      let userInfo : Option UserInfo :=
        if config.username ≠ "" ∧ config.password ≠ "" then
          some { username := config.username, password := config.password }
        else none
      match redirectEnv with
      | some v =>
          match v.toInt? with
          | none =>
              Except.error
                "error parsing env var REDIRECT_POLICY_NO_OF_REDIRECTS value must be an integer"
          | some _ => Except.ok { host := u.host, userInfo := userInfo }
      | none => Except.ok { host := u.host, userInfo := userInfo }

/-- `model.QueryLogConfigInterval`: the numeric query-log retention interval. -/
abbrev QueryLogConfigInterval := Int

/-- Translation of `pointer.ToB`: address of a fresh copy of the boolean. -/
def ToB (b : Bool) : Option Bool :=
  some b

/-- Translation of `pointer.FromB`: dereference, with `false` for nil. -/
def FromB (b : Option Bool) : Bool :=
  match b with
  | none => false
  | some v => v

/-- Translation of `pointer.FromQueryLogConfigInterval`: dereference, with `0`
for nil. -/
def FromQueryLogConfigInterval (i : Option QueryLogConfigInterval) :
    QueryLogConfigInterval :=
  match i with
  | none => 0
  | some v => v

/-- A network oracle whose second call (index 1) fails with a transport error
and whose other calls complete with 200 OK. -/
def failSecondCall : Nat → RestyOutcome :=
  fun k =>
    if k = 1 then RestyOutcome.failure "connection reset" none
    else RestyOutcome.success { statusCode := 200, status := "200 OK", body := "", location := "" }

/-- C1 counterexample: with three rewrite entries (and three clients) where
the call for item 2 fails, only two calls are issued — the call for item 3 is
never attempted and the batch returns the error, instead of attempting all
three and recording 2 successes and 1 failure. -/
theorem addBatch_aborts_counterexample :
    (AddRewriteEntries failSecondCall
        [{ domain := "a.example", answer := "1.1.1.1" },
         { domain := "b.example", answer := "2.2.2.2" },
         { domain := "c.example", answer := "3.3.3.3" }]).1 =
      [{ url := "/rewrite/add", body := { domain := "a.example", answer := "1.1.1.1" } },
       { url := "/rewrite/add", body := { domain := "b.example", answer := "2.2.2.2" } }] ∧
    (AddRewriteEntries failSecondCall
        [{ domain := "a.example", answer := "1.1.1.1" },
         { domain := "b.example", answer := "2.2.2.2" },
         { domain := "c.example", answer := "3.3.3.3" }]).2 =
      Except.error (ClientError.transportError "connection reset") ∧
    (AddClients failSecondCall
        [{ name := "one" }, { name := "two" }, { name := "three" }]).1 =
      [{ url := "/clients/add", body := { name := "one" } },
       { url := "/clients/add", body := { name := "two" } }] :=
  ⟨rfl, rfl, rfl⟩

/-- C1 (amended): the batch add operations abort at the first failing item —
for a 3-item batch whose second call fails, item 1 is attempted, item 2 is
attempted and fails, item 3 is never attempted, and the operation returns the
first error (for `AddRewriteEntries` and `AddClients` alike). -/
theorem addBatch_aborts_on_first_failure (net : Nat → RestyOutcome)
    (err : ClientError) (x y z : RewriteEntry) (p q s : Model.Client)
    (h0 : doPost (net 0) = Except.ok ()) (h1 : doPost (net 1) = Except.error err) :
    AddRewriteEntries net [x, y, z] =
      ([{ url := "/rewrite/add", body := x }, { url := "/rewrite/add", body := y }],
        Except.error err) ∧
    AddClients net [p, q, s] =
      ([{ url := "/clients/add", body := p }, { url := "/clients/add", body := q }],
        Except.error err) := by
  have hok : ∀ i, i < 1 → doPost (net (0 + i)) = Except.ok () := by
    intro i hi
    have hi0 : i = 0 := Nat.lt_one_iff.mp hi
    subst hi0
    simpa using h0
  have hfail : doPost (net (0 + 1)) = Except.error err := by simpa using h1
  constructor
  · exact batchPost_abort "/rewrite/add" net err 0 1 [x, y, z] (by simp) hok hfail
  · exact batchPost_abort "/clients/add" net err 0 1 [p, q, s] (by simp) hok hfail

/-- C1 (amended) witness: evaluated at a concrete 3-entry batch whose second
call fails. -/
theorem addBatch_aborts_on_first_failure_witness :
    AddRewriteEntries failSecondCall
        [{ domain := "x.example", answer := "10.0.0.1" },
         { domain := "y.example", answer := "10.0.0.2" },
         { domain := "z.example", answer := "10.0.0.3" }] =
      ([{ url := "/rewrite/add", body := { domain := "x.example", answer := "10.0.0.1" } },
        { url := "/rewrite/add", body := { domain := "y.example", answer := "10.0.0.2" } }],
        Except.error (ClientError.transportError "connection reset")) ∧
    AddClients failSecondCall [{ name := "p" }, { name := "q" }, { name := "r" }] =
      ([{ url := "/clients/add", body := { name := "p" } },
        { url := "/clients/add", body := { name := "q" } }],
        Except.error (ClientError.transportError "connection reset")) :=
  addBatch_aborts_on_first_failure failSecondCall
    (ClientError.transportError "connection reset")
    { domain := "x.example", answer := "10.0.0.1" }
    { domain := "y.example", answer := "10.0.0.2" }
    { domain := "z.example", answer := "10.0.0.3" }
    { name := "p" } { name := "q" } { name := "r" } rfl rfl

/-- C5: when every call succeeds, `AddRewriteEntries` (resp.
`DeleteRewriteEntries`) issues exactly one "/rewrite/add" (resp.
"/rewrite/delete") request per entry, in input order, and succeeds. -/
theorem rewrite_one_call_per_item (net : Nat → RestyOutcome)
    (entries : List RewriteEntry)
    (h : ∀ j, j < entries.length → doPost (net j) = Except.ok ()) :
    AddRewriteEntries net entries =
      (entries.map (fun e => { url := "/rewrite/add", body := e }), Except.ok ()) ∧
    DeleteRewriteEntries net entries =
      (entries.map (fun e => { url := "/rewrite/delete", body := e }), Except.ok ()) := by
  have h0 : ∀ j, j < entries.length → doPost (net (0 + j)) = Except.ok () := by
    intro j hj
    rw [Nat.zero_add]
    exact h j hj
  exact ⟨batchPost_all_ok "/rewrite/add" net 0 entries h0,
    batchPost_all_ok "/rewrite/delete" net 0 entries h0⟩

/-- C5 witness: evaluated at a concrete 3-entry batch where every call
completes with 200 OK. -/
theorem rewrite_one_call_per_item_witness :
    AddRewriteEntries
        (fun _ => RestyOutcome.success
          { statusCode := 200, status := "200 OK", body := "", location := "" })
        [{ domain := "a.example", answer := "1.1.1.1" },
         { domain := "b.example", answer := "2.2.2.2" },
         { domain := "c.example", answer := "3.3.3.3" }] =
      ([{ url := "/rewrite/add", body := { domain := "a.example", answer := "1.1.1.1" } },
        { url := "/rewrite/add", body := { domain := "b.example", answer := "2.2.2.2" } },
        { url := "/rewrite/add", body := { domain := "c.example", answer := "3.3.3.3" } }],
        Except.ok ()) ∧
    DeleteRewriteEntries
        (fun _ => RestyOutcome.success
          { statusCode := 200, status := "200 OK", body := "", location := "" })
        [{ domain := "a.example", answer := "1.1.1.1" },
         { domain := "b.example", answer := "2.2.2.2" },
         { domain := "c.example", answer := "3.3.3.3" }] =
      ([{ url := "/rewrite/delete", body := { domain := "a.example", answer := "1.1.1.1" } },
        { url := "/rewrite/delete", body := { domain := "b.example", answer := "2.2.2.2" } },
        { url := "/rewrite/delete", body := { domain := "c.example", answer := "3.3.3.3" } }],
        Except.ok ()) :=
  rewrite_one_call_per_item
    (fun _ => RestyOutcome.success
      { statusCode := 200, status := "200 OK", body := "", location := "" })
    [{ domain := "a.example", answer := "1.1.1.1" },
     { domain := "b.example", answer := "2.2.2.2" },
     { domain := "c.example", answer := "3.3.3.3" }]
    (fun _ _ => rfl)

/-- C6: `Setup` issues exactly one call, to "/install/configure", whose body
sets the web interface to 0.0.0.0 port 3000 and DNS to 0.0.0.0 port 53, and
carries the client's username and password as the initial admin account when
credentials are configured (Go zero-value strings otherwise). -/
theorem setup_single_call (net : RestyOutcome) (userInfo : Option UserInfo) :
    Setup net userInfo =
      ([{ url := "/install/configure",
          body := { web := { ip := "0.0.0.0", port := 3000 },
                    dns := { ip := "0.0.0.0", port := 53 },
                    username := (userInfo.map UserInfo.username).getD "",
                    password := (userInfo.map UserInfo.password).getD "" },
          auth := none }], doPost net) := by
  cases userInfo <;> rfl

/-- C7: when the URL built from the instance configuration (URL plus the
API-path override) fails to parse, `New` returns that parse error and no
client is constructed, so no remote operation can be issued for the
instance. -/
theorem new_rejects_unparsable_url (parseURL : String → Except String URLParts)
    (redirectEnv : Option String) (config : AdGuardInstance) (e : String)
    (h : parseURL (apiURLOf config) = Except.error e) :
    New parseURL redirectEnv config = Except.error e := by
  unfold New
  rw [h]

/-- C7 witness: a concrete instance whose combined URL the parser rejects
makes `New` return the parse error. -/
theorem new_rejects_unparsable_url_witness :
    New (fun _ => Except.error "parse \": \\x00\": invalid URL") none
        { url := ": \x00", apiPath := "", username := "", password := "",
          insecureSkipVerify := false } =
      Except.error "parse \": \\x00\": invalid URL" :=
  new_rejects_unparsable_url (fun _ => Except.error "parse \": \\x00\": invalid URL") none
    { url := ": \x00", apiPath := "", username := "", password := "",
      insecureSkipVerify := false }
    "parse \": \\x00\": invalid URL" rfl

/-- C9: the single request `Setup` issues carries no basic-authentication
credentials (`req.UserInfo` is cleared) even when the client has credentials;
those credentials travel only inside the request body as the initial admin
account. -/
theorem setup_clears_basic_auth (net : RestyOutcome) (u : UserInfo) :
    ((Setup net (some u)).1.map SetupCall.auth) = [none] ∧
    ((Setup net (some u)).1.map (fun c => (c.body.username, c.body.password))) =
      [(u.username, u.password)] ∧
    ((Setup net none).1.map SetupCall.auth) = [none] :=
  ⟨rfl, rfl, rfl⟩

/-- C10: the pointer helpers round-trip with fixed defaults for nil:
`FromB (ToB b) = b`, `FromB nil = false`, dereferencing a query-log interval
pointer returns the pointee, and nil maps to 0. -/
theorem pointer_roundtrip (b : Bool) (i : QueryLogConfigInterval) :
    FromB (ToB b) = b ∧ FromB none = false ∧
    FromQueryLogConfigInterval (some i) = i ∧
    FromQueryLogConfigInterval none = 0 :=
  ⟨rfl, rfl, rfl, rfl⟩
